import Mathlib

/-!
Verification development for the coverage-map pipeline
(`streamlit_app.py`).  The program is a linear pipeline over a columnar
dataframe: resolve column names, rename, drop missing values, filter
out-of-range coordinates, colorize by signal strength, and compute a map
view.  We embed the dataframe operations shallowly: cells are an
inductive `Val` (null / float / int / string), a dataframe is a header
of named, typed columns plus row-major data, and the fallible pipeline
returns `Except PrepError DF`.  Machine floats are modelled as exact
rationals.
-/

/-- A single dataframe cell: polars values are either null or a value of
the column's dtype (we need floats, integers and strings). -/
inductive Val
  | vnull
  | vfloat (q : ℚ)
  | vint (n : ℤ)
  | vstr (s : String)
deriving DecidableEq, Repr

/-- Column dtypes relevant to the pipeline (Float64, Int64/Int32, Utf8). -/
inductive DType
  | dfloat
  | dint
  | dstr
deriving DecidableEq, Repr

/-- A dataframe: a header of (name, dtype) pairs and row-major cells.
Cell `i` of a row belongs to header entry `i`. -/
structure DF where
  header : List (String × DType)
  rows : List (List Val)
deriving DecidableEq, Repr

/-- The column names of a dataframe, in order (`df.columns`). -/
def DF.colNames (df : DF) : List String := df.header.map Prod.fst

/-- First index at which the predicate holds (used for positional column
lookup; structural recursion keeps proofs simple). -/
def findIdxA {α : Type} (p : α → Bool) : List α → Option ℕ
  | [] => none
  | x :: xs => if p x then some 0 else (findIdxA p xs).map (· + 1)

/-- Index of the first column with the given name. -/
def DF.colIdx (df : DF) (name : String) : Option ℕ :=
  findIdxA (fun p => p.1 == name) df.header

/-- The cell of row `r` under the column `name` (columns referenced by
the pipeline always exist; the null default is never reached there). -/
def DF.cell (df : DF) (r : List Val) (name : String) : Val :=
  match df.colIdx name with
  | some i => r.getD i .vnull
  | none => .vnull

/-- Dtype of the first column with the given name. -/
def DF.dtypeAt (df : DF) (name : String) : Option DType :=
  (df.header.find? (fun p => p.1 == name)).map Prod.snd

/-- The static alias table: `REQUIRED_COLS` from the source. -/
def REQUIRED_COLS : List (String × List String) :=
  [("lat", ["Latitude", "latitude", "LAT", "lat"]),
   ("lon", ["Longitude", "longitude", "LON", "lon"]),
   ("rsrp", ["RSRP (dBm)", "RSRP", "rsrp_dbm", "rsrp"])]

/-- Aliases registered for a semantic field. -/
def aliasesFor (k : String) : List String :=
  (REQUIRED_COLS.lookup k).getD []

/-- `str.lower()` as used by the resolver: lowercase each character.
(Defined over the character list so that it reduces in the kernel;
`String.toLower` recurses on byte positions and does not.) -/
def strLower (s : String) : String := ⟨s.data.map Char.toLower⟩

/-- The dict comprehension from the Python source:
content of the dict built left-to-right where a later column with the
same lowercased name overwrites an earlier one.  We prepend, so that
`List.lookup` (first hit) sees the latest binding, matching dict
overwrite semantics. -/
def colsLower (cols : List String) : List (String × String) :=
  cols.foldl (fun m c => (strLower c, c) :: m) []

/-- The loop body of the source's column resolver: for each candidate
alias in order, try an exact match, then a case-insensitive match via
the precomputed lowercase dict; first hit wins. -/
def findColAux (cols : List String) (m : List (String × String)) :
    List String → Option String
  | [] => none
  | name :: rest =>
    if name ∈ cols then some name
    else
      match m.lookup (strLower name) with
      | some orig => some orig
      | none => findColAux cols m rest

/-- `find_col` from the source: resolve a semantic field to an actual
column name, or `none` when unresolved. -/
def find_col (cols : List String) (candidates : List String) : Option String :=
  findColAux cols (colsLower cols) candidates

/-- The normalized signal value: `((rsrp + 135) / 50).clip(0, 1)`. -/
def tOf (rsrp : ℚ) : ℚ := min (max ((rsrp + 135) / 50) 0) 1

/-- Rounding as Rust's `f64::round` (used by polars `.round()`):
half away from zero.  (`Rat.floor` rather than `Int.floor` so that the
definition evaluates in the kernel; the two agree, see `rnd_eq_floor`.) -/
def rnd (x : ℚ) : ℤ :=
  if x < 0 then -(Rat.floor (-x + 1 / 2)) else Rat.floor (x + 1 / 2)

/-- The per-row Color Mapper of the source:
`r = round(255 * (1 - t))`, `g = round(255 * t)`, `b = 0`. -/
def colorMap (rsrp : ℚ) : ℤ × ℤ × ℤ :=
  (rnd (255 * (1 - tOf rsrp)), rnd (255 * tOf rsrp), 0)

/-- Errors raised inside `validate_and_prepare`.  The source raises
`ValueError` with a message for the two deliberate failures, while a
type error in a polars expression (e.g. arithmetic on a string column)
surfaces as a polars exception, here `computeError`. -/
inductive PrepError
  | valueError (msg : String)
  | computeError
deriving DecidableEq, Repr

/-- The fixed message of the missing-columns `ValueError` in the source
(the locally computed `missing` list is not interpolated into it). -/
def missingMsg : String :=
  "Missing required columns. Expected columns (case-insensitive) like: Latitude, Longitude, and RSRP (dBm)."

/-- The message of the `ValueError` raised when cleaning removes every
row. -/
def noValidMsg : String :=
  "No valid rows after cleaning (nulls or out-of-range values)."

/-- New name of a column under a rename mapping (unmapped names are
kept). -/
def renameKey (m : List (String × String)) (c : String) : String :=
  (m.lookup c).getD c

/-- `df.rename(mapping)`: rename columns according to the mapping;
dtypes, column order and rows are unchanged. -/
def DF.rename (df : DF) (m : List (String × String)) : DF :=
  { df with header := df.header.map (fun p => (renameKey m p.1, p.2)) }

/-- `df.drop_nulls(names)`: keep only the rows whose cells under each of
the listed columns are non-null. -/
def DF.dropNulls (df : DF) (names : List String) : DF :=
  { df with rows := df.rows.filter (fun r => names.all (fun n => !(df.cell r n == .vnull))) }

/-- `value.is_between(lo, hi)` with closed bounds, as used in the range
filter: true for an in-range numeric value, false for null (a null
comparison filters the row out). -/
def valBetween (v : Val) (lo hi : ℚ) : Bool :=
  match v with
  | .vfloat q => decide (lo ≤ q ∧ q ≤ hi)
  | .vint n => decide (lo ≤ (n : ℚ) ∧ (n : ℚ) ≤ hi)
  | _ => false

/-- The range filter of the source:
`df.filter(col("lat").is_between(-90, 90) & col("lon").is_between(-180, 180))`.
`is_between` with numeric bounds on a string-typed column is a polars
type error, modelled as `computeError`. -/
def filterStep (df : DF) : Except PrepError DF :=
  if df.dtypeAt "lat" = some .dstr ∨ df.dtypeAt "lon" = some .dstr then
    .error .computeError
  else
    .ok { df with rows := df.rows.filter (fun r =>
      valBetween (df.cell r "lat") (-90) 90 && valBetween (df.cell r "lon") (-180) 180) }

/-- Write a whole column: `with_columns` semantics — replace the column
in place when the name already exists, otherwise append it on the
right.  `vals` has one entry per row. -/
def DF.setCol (df : DF) (name : String) (t : DType) (vals : List Val) : DF :=
  match findIdxA (fun p => p.1 == name) df.header with
  | some i =>
    { header := df.header.set i (name, t),
      rows := df.rows.zipWith (fun r v => r.set i v) vals }
  | none =>
    { header := df.header ++ [(name, t)],
      rows := df.rows.zipWith (fun r v => r ++ [v]) vals }

/-- The `t` cell derived from an `RSRP (dBm)` cell (nulls propagate
through the arithmetic). -/
def tCellOf (v : Val) : Val :=
  match v with
  | .vfloat q => .vfloat (tOf q)
  | .vint n => .vfloat (tOf n)
  | _ => .vnull

/-- The `r` cell derived from an `RSRP (dBm)` cell. -/
def rCellOf (v : Val) : Val :=
  match v with
  | .vfloat q => .vint (colorMap q).1
  | .vint n => .vint (colorMap n).1
  | _ => .vnull

/-- The `g` cell derived from an `RSRP (dBm)` cell. -/
def gCellOf (v : Val) : Val :=
  match v with
  | .vfloat q => .vint (colorMap q).2.1
  | .vint n => .vint (colorMap n).2.1
  | _ => .vnull

/-- The `with_columns` block of the source: compute `t`, `r`, `g` from
the `RSRP (dBm)` column and the literal column `b = 0`.  All four
expressions are evaluated against the incoming frame.  Arithmetic
(`+ 135`) on a string-typed signal column is a polars type error,
modelled as `computeError`. -/
def colorStep (df : DF) : Except PrepError DF :=
  if df.dtypeAt "RSRP (dBm)" = some .dstr then
    .error .computeError
  else
    let rs := df.rows.map (fun r => df.cell r "RSRP (dBm)")
    .ok ((((df.setCol "t" .dfloat (rs.map tCellOf)).setCol
        "r" .dint (rs.map rCellOf)).setCol
        "g" .dint (rs.map gCellOf)).setCol
        "b" .dint (df.rows.map (fun _ => .vint 0)))

/-- `df.select(names)`: keep the listed columns, in the listed order. -/
def DF.select (df : DF) (names : List String) : DF :=
  { header := names.filterMap (fun n => df.header.find? (fun p => p.1 == n)),
    rows := df.rows.map (fun r => names.filterMap (fun n => (df.colIdx n).map (fun i => r.getD i .vnull))) }

/-- `validate_and_prepare` from the source.  Note that the source's
`coerce_numeric` helper is defined but never called anywhere, so no
numeric coercion of the signal column happens in this pipeline; the
only missing-value handling is `drop_nulls`. -/
def validate_and_prepare (df : DF) : Except PrepError DF :=
  match find_col df.colNames (aliasesFor "lat"),
      find_col df.colNames (aliasesFor "lon"),
      find_col df.colNames (aliasesFor "rsrp") with
  | some latC, some lonC, some rsrpC =>
    match filterStep (((df.rename
        [(latC, "lat"), (lonC, "lon"), (rsrpC, "RSRP (dBm)")]).dropNulls
        ["lat", "lon", "RSRP (dBm)"])) with
    | .error e => .error e
    | .ok df3 =>
      if df3.rows.length = 0 then .error (.valueError noValidMsg)
      else
        match colorStep df3 with
        | .error e => .error e
        | .ok df4 => .ok (df4.select ["lat", "lon", "RSRP (dBm)", "r", "g", "b"])
  | _, _, _ => .error (.valueError missingMsg)

/-- Largest element of a list of rationals (0 for the empty list, which
the View Heuristic never sees). -/
def listMax : List ℚ → ℚ
  | [] => 0
  | x :: xs => xs.foldl max x

/-- Smallest element of a list of rationals. -/
def listMin : List ℚ → ℚ
  | [] => 0
  | x :: xs => xs.foldl min x

/-- Mean of a list of rationals. -/
def meanOf (xs : List ℚ) : ℚ := xs.sum / xs.length

/-- Bounding-box span of a list of (lat, lon) points:
`max(lat_max - lat_min, lon_max - lon_min)`. -/
def spanOf (rows : List (ℚ × ℚ)) : ℚ :=
  max (listMax (rows.map Prod.fst) - listMin (rows.map Prod.fst))
    (listMax (rows.map Prod.snd) - listMin (rows.map Prod.snd))

/-- The zoom ladder of `compute_view`, first matching threshold wins. -/
def zoomOf (span : ℚ) : ℕ :=
  if span < 0.01 then 15
  else if span < 0.1 then 12
  else if span < 1 then 9
  else if span < 5 then 6
  else 3

/-- `compute_view` from the source: center on the mean coordinates and
pick a zoom from the bounding-box span.  A cleaned record is reduced to
its (lat, lon) pair, which is all `compute_view` reads. -/
def compute_view (rows : List (ℚ × ℚ)) : ℚ × ℚ × ℕ :=
  (meanOf (rows.map Prod.fst), meanOf (rows.map Prod.snd), zoomOf (spanOf rows))

/-- Follows the spec's words (Column Resolver algorithm, for comparison
with the source's `find_col`): a first pass looks for an alias with an
exact match among the column names; only if no alias exact-matches does
a second pass look for the first alias with a case-insensitive match. -/
def find_col_spec (cols : List String) (candidates : List String) : Option String :=
  match candidates.find? (fun a => decide (a ∈ cols)) with
  | some a => some a
  | none => candidates.findSome? (fun a => cols.find? (fun c => strLower c == strLower a))

/-- A well-formed upload: one row, numeric columns, in-range values. -/
def dfGood : DF :=
  ⟨[("Latitude", .dfloat), ("Longitude", .dfloat), ("RSRP (dBm)", .dfloat)],
   [[.vfloat 40, .vfloat (-74), .vfloat (-100)]]⟩

/-- The prepared frame the pipeline produces from `dfGood`:
`t = (−100 + 135)/50 = 0.7`, so `r = round(255·0.3) = 77` and
`g = round(255·0.7) = 179`. -/
def outGood : DF :=
  ⟨[("lat", .dfloat), ("lon", .dfloat), ("RSRP (dBm)", .dfloat),
    ("r", .dint), ("g", .dint), ("b", .dint)],
   [[.vfloat 40, .vfloat (-74), .vfloat (-100), .vint 77, .vint 179, .vint 0]]⟩

/-- An upload whose only row has a null latitude: cleaning removes
everything. -/
def dfAllNull : DF :=
  ⟨[("Latitude", .dfloat), ("Longitude", .dfloat), ("RSRP (dBm)", .dfloat)],
   [[.vnull, .vfloat 0, .vfloat 0]]⟩

/-- The cleaned (empty) frame obtained from `dfAllNull` after the null
and range drops. -/
def df3Empty : DF :=
  ⟨[("lat", .dfloat), ("lon", .dfloat), ("RSRP (dBm)", .dfloat)], []⟩

/-- An upload whose signal column is string-typed: `"abc"` cannot be
parsed as a number, `"-90.5"` could be. -/
def dfStrSignal : DF :=
  ⟨[("Latitude", .dfloat), ("Longitude", .dfloat), ("RSRP (dBm)", .dstr)],
   [[.vfloat 40, .vfloat (-74), .vstr "abc"],
    [.vfloat 41, .vfloat (-75), .vstr "-90.5"]]⟩

/-- An upload with resolvable latitude and longitude but no
signal-strength column. -/
def dfLatLonOnly : DF :=
  ⟨[("Latitude", .dfloat), ("Longitude", .dfloat)], []⟩

/-- An upload in which none of the three fields resolves. -/
def dfNoCols : DF := ⟨[("speed", .dfloat)], []⟩

/-- A mixed upload: one clean row, one row with a null latitude, one row
with latitude 95 (out of range), one with longitude −181 (out of
range). -/
def dfMix : DF :=
  ⟨[("Latitude", .dfloat), ("Longitude", .dfloat), ("RSRP (dBm)", .dfloat)],
   [[.vfloat 40, .vfloat (-74), .vfloat (-100)],
    [.vnull, .vfloat 0, .vfloat (-100)],
    [.vfloat 95, .vfloat 0, .vfloat (-100)],
    [.vfloat 0, .vfloat (-181), .vfloat (-100)]]⟩

/- ## Helper lemmas about the column resolver -/

theorem getLast?_cons_or {α : Type} (a : α) (l : List α) :
    (a :: l).getLast? = l.getLast?.or (some a) := by
  induction l generalizing a with
  | nil => simp
  | cons b l ih =>
    rw [List.getLast?_cons_cons, ih b]
    cases l.getLast? <;> rfl

theorem mem_of_getLast?_eq {α : Type} {l : List α} {a : α}
    (h : l.getLast? = some a) : a ∈ l := by
  induction l with
  | nil => simp at h
  | cons b l ih =>
    rw [getLast?_cons_or] at h
    cases hl : l.getLast? with
    | some c => rw [hl] at h; cases h; exact List.mem_cons_of_mem _ (ih hl)
    | none => rw [hl] at h; cases h; exact List.mem_cons_self _ _

theorem lookup_colsLower_foldl (cols : List String) (acc : List (String × String))
    (k : String) :
    ((cols.foldl (fun m c => (strLower c, c) :: m) acc).lookup k) =
      ((cols.filter (fun c => strLower c == k)).getLast?).or (acc.lookup k) := by
  induction cols generalizing acc with
  | nil => simp
  | cons c cs ih =>
    show ((cs.foldl _ ((strLower c, c) :: acc)).lookup k) = _
    rw [ih]
    by_cases hc : strLower c = k
    · have hk : (k == strLower c) = true := by simp [hc]
      have hp : (strLower c == k) = true := by simp [hc]
      rw [List.filter_cons, if_pos hp, getLast?_cons_or, Option.or_assoc]
      have : ((some c).or (acc.lookup k)) = some c := rfl
      rw [this]
      congr 1
      simp [List.lookup_cons, hk]
    · have hk : (k == strLower c) = false := by simp; exact fun h => hc h.symm
      have hp : (strLower c == k) = false := by simp [hc]
      rw [List.filter_cons, if_neg (by simp [hp])]
      congr 1
      simp [List.lookup_cons, hk]

/-- The lowercase dict maps a key to the last column whose lowercased
name equals it: later columns overwrite earlier ones. -/
theorem lookup_colsLower (cols : List String) (k : String) :
    (colsLower cols).lookup k = (cols.filter (fun c => strLower c == k)).getLast? := by
  rw [colsLower, lookup_colsLower_foldl]
  simp

/-- Single-pass characterization of the source's resolver: scanning the
aliases in order, an alias hits either by exact match (returning the
alias) or by case-insensitive match (returning the last
case-insensitively equal column); the first hit wins. -/
theorem find_col_eq_findSome (cols cands : List String) :
    find_col cols cands = cands.findSome? (fun a =>
      if a ∈ cols then some a
      else (cols.filter (fun c => strLower c == strLower a)).getLast?) := by
  rw [find_col]
  induction cands with
  | nil => rfl
  | cons name rest ih =>
    rw [findColAux, List.findSome?_cons]
    by_cases hmem : name ∈ cols
    · simp only [if_pos hmem]
    · simp only [if_neg hmem]
      rw [lookup_colsLower]
      cases h : (cols.filter (fun c => strLower c == strLower name)).getLast? with
      | some o => rfl
      | none => exact ih

theorem findSome?_eq_some_first {α β : Type} (f : α → Option β) (l : List α)
    (c : β) (h : l.findSome? f = some c) :
    ∃ a ∈ l, l.find? (fun x => (f x).isSome) = some a ∧ f a = some c := by
  induction l with
  | nil => simp at h
  | cons x xs ih =>
    cases hfx : f x with
    | some b =>
      have hbc : (some b : Option β) = some c := by
        rw [List.findSome?_cons, hfx] at h; exact h
      cases hbc
      exact ⟨x, List.mem_cons_self _ _, by simp [List.find?_cons, hfx], hfx⟩
    | none =>
      have h' : xs.findSome? f = some c := by
        rw [List.findSome?_cons, hfx] at h; exact h
      obtain ⟨a, hmem, hfind, hfa⟩ := ih h'
      exact ⟨a, List.mem_cons_of_mem _ hmem, by simp [List.find?_cons, hfx, hfind], hfa⟩

theorem findSome?_congr_mem {α β : Type} {f g : α → Option β} (l : List α)
    (h : ∀ a ∈ l, f a = g a) : l.findSome? f = l.findSome? g := by
  induction l with
  | nil => rfl
  | cons x xs ih =>
    rw [List.findSome?_cons, List.findSome?_cons, h x (List.mem_cons_self _ _),
      ih (fun a ha => h a (List.mem_cons_of_mem _ ha))]

/-- Whatever `find_col` returns is one of the dataframe's column names. -/
theorem find_col_mem {cols cands : List String} {c : String}
    (h : find_col cols cands = some c) : c ∈ cols := by
  rw [find_col_eq_findSome] at h
  obtain ⟨a, _, _, hfa⟩ := findSome?_eq_some_first _ _ _ h
  by_cases hmem : a ∈ cols
  · rw [if_pos hmem] at hfa; cases hfa; exact hmem
  · rw [if_neg hmem] at hfa
    exact (List.mem_filter.mp (mem_of_getLast?_eq hfa)).1

theorem getLast?_isSome_iff_not_isEmpty {α : Type} (l : List α) :
    (l.getLast?).isSome = !l.isEmpty := by
  cases l with
  | nil => rfl
  | cons a l => rw [getLast?_cons_or, List.isEmpty_cons]; cases l.getLast? <;> rfl

/- ## Claims C3 and C10: the Column Resolver -/

/-- Claim C3, counterexample: the source's `find_col` is NOT the
two-pass algorithm of the spec.  With columns `["LATITUDE", "lat"]` the
alias `"lat"` exact-matches the column `"lat"`, yet `find_col` resolves
the latitude field to `"LATITUDE"` through the case-insensitive match of
the earlier alias `"Latitude"`, so exact matching does not take
precedence over case-insensitive matching across the alias list; the
spec-worded two-pass `find_col_spec` returns `"lat"` instead. -/
theorem C3_counterexample :
    find_col ["LATITUDE", "lat"] ["Latitude", "latitude", "LAT", "lat"] = some "LATITUDE" ∧
    find_col_spec ["LATITUDE", "lat"] ["Latitude", "latitude", "LAT", "lat"] = some "lat" ∧
    ("lat" : String) ∈ ["LATITUDE", "lat"] ∧
    ("lat" : String) ∈ ["Latitude", "latitude", "LAT", "lat"] ∧
    ("LATITUDE" : String) ≠ "lat" := by
  refine ⟨rfl, rfl, by decide, by decide, by decide⟩

/-- Claim C3 (amended): column resolution is a single ordered scan of
the field's aliases in which each alias is tried for an exact match and
then immediately for a case-insensitive match before the next alias is
considered; the first alias satisfying either check wins (its exact
match returning the alias itself, its case-insensitive match returning
the last case-insensitively equal column), and if no alias matches the
field is unresolved (`none`). -/
theorem C3_single_pass_resolution :
    ∀ (cols cands : List String),
      find_col cols cands = cands.findSome? (fun a =>
        if a ∈ cols then some a
        else (cols.filter (fun c => strLower c == strLower a)).getLast?) :=
  find_col_eq_findSome

/-- Claim C10: a successful `find_col` result is always one of the
dataframe's actual column names (so the later `rename` targets an
existing column), and when no alias exact-matches, the winning alias is
the first one with any case-insensitive match and the returned column is
the last column case-insensitively equal to it. -/
theorem C10_find_col_safety :
    ∀ (cols cands : List String) (c : String), find_col cols cands = some c →
      c ∈ cols ∧
      ((∀ a ∈ cands, a ∉ cols) →
        ∃ a ∈ cands,
          cands.find? (fun x => !(cols.filter (fun y => strLower y == strLower x)).isEmpty)
            = some a ∧
          (cols.filter (fun y => strLower y == strLower a)).getLast? = some c) := by
  intro cols cands c h
  refine ⟨find_col_mem h, fun hno => ?_⟩
  rw [find_col_eq_findSome] at h
  have hcong : cands.findSome? (fun a =>
      if a ∈ cols then some a
      else (cols.filter (fun y => strLower y == strLower a)).getLast?)
      = cands.findSome? (fun a => (cols.filter (fun y => strLower y == strLower a)).getLast?) :=
    findSome?_congr_mem cands (fun a ha => by rw [if_neg (hno a ha)])
  rw [hcong] at h
  obtain ⟨a, hmem, hfind, hfa⟩ := findSome?_eq_some_first _ _ _ h
  refine ⟨a, hmem, ?_, hfa⟩
  have hpred : (fun x : String => ((cols.filter (fun y => strLower y == strLower x)).getLast?).isSome)
      = (fun x : String => !(cols.filter (fun y => strLower y == strLower x)).isEmpty) := by
    funext x
    exact getLast?_isSome_iff_not_isEmpty _
  rw [← hpred]
  exact hfind

/- ## Helper lemmas about the dataframe operations -/

theorem rename_rows (df : DF) (m : List (String × String)) :
    (df.rename m).rows = df.rows := rfl

theorem rename_colNames (df : DF) (m : List (String × String)) :
    (df.rename m).colNames = df.colNames.map (renameKey m) := by
  simp [DF.rename, DF.colNames]

theorem dropNulls_cell (df : DF) (names : List String) (r : List Val) (n : String) :
    (df.dropNulls names).cell r n = df.cell r n := rfl

theorem dropNulls_dtypeAt (df : DF) (names : List String) (n : String) :
    (df.dropNulls names).dtypeAt n = df.dtypeAt n := rfl

theorem dropNulls_header (df : DF) (names : List String) :
    (df.dropNulls names).header = df.header := rfl

theorem findIdxA_getElem? {α : Type} {p : α → Bool} {l : List α} {i : ℕ}
    (h : findIdxA p l = some i) : ∃ x, l[i]? = some x ∧ p x = true := by
  induction l generalizing i with
  | nil => simp [findIdxA] at h
  | cons a l ih =>
    rw [findIdxA] at h
    by_cases hp : p a
    · rw [if_pos hp] at h
      cases h
      exact ⟨a, by simp, hp⟩
    · rw [if_neg hp] at h
      cases hfl : findIdxA p l with
      | none => rw [hfl] at h; cases h
      | some j =>
        rw [hfl] at h
        have hij : j + 1 = i := by cases h; rfl
        obtain ⟨x, hx, hpx⟩ := ih hfl
        exact ⟨x, by rw [← hij]; simpa using hx, hpx⟩

theorem list_set_self {α : Type} {l : List α} {i : ℕ} {a : α}
    (h : l[i]? = some a) : l.set i a = l := by
  induction l generalizing i with
  | nil => simp at h
  | cons b l ih =>
    cases i with
    | zero =>
      simp only [List.getElem?_cons_zero, Option.some_inj] at h
      rw [h]
      rfl
    | succ j =>
      simp only [List.getElem?_cons_succ] at h
      show b :: l.set j a = b :: l
      rw [ih h]

theorem setCol_rows_length_eq (df : DF) (n : String) (t : DType) (vs : List Val) :
    (df.setCol n t vs).rows.length = min df.rows.length vs.length := by
  cases hfind : findIdxA (fun p => p.1 == n) df.header <;>
    simp [DF.setCol, hfind, List.length_zipWith]

theorem setCol_rows_length (df : DF) (n : String) (t : DType) (vs : List Val)
    (h : vs.length = df.rows.length) :
    (df.setCol n t vs).rows.length = df.rows.length := by
  rw [setCol_rows_length_eq, h, Nat.min_self]

theorem mem_setCol_of_mem {df : DF} {c : String} (n : String) (t : DType)
    (vs : List Val) (h : c ∈ df.colNames) : c ∈ (df.setCol n t vs).colNames := by
  cases hfind : findIdxA (fun p => p.1 == n) df.header with
  | some i =>
    obtain ⟨e, he, hpe⟩ := findIdxA_getElem? hfind
    have hn : e.1 = n := by simpa using hpe
    have hmap : (df.header.map Prod.fst)[i]? = some n := by
      rw [List.getElem?_map, he]
      simp [hn]
    simp only [DF.setCol, hfind, DF.colNames, List.map_set]
    rw [list_set_self hmap]
    exact h
  | none =>
    simp only [DF.setCol, hfind, DF.colNames, List.map_append]
    exact List.mem_append_left _ h

theorem self_mem_setCol {df : DF} (n : String) (t : DType) (vs : List Val) :
    n ∈ (df.setCol n t vs).colNames := by
  cases hfind : findIdxA (fun p => p.1 == n) df.header with
  | some i =>
    obtain ⟨e, he, hpe⟩ := findIdxA_getElem? hfind
    have hn : e.1 = n := by simpa using hpe
    have hmap : (df.header.map Prod.fst)[i]? = some n := by
      rw [List.getElem?_map, he]
      simp [hn]
    simp only [DF.setCol, hfind, DF.colNames, List.map_set]
    rw [list_set_self hmap]
    obtain ⟨hi, hv⟩ := List.getElem?_eq_some.mp hmap
    exact hv ▸ List.getElem_mem hi
  | none =>
    simp only [DF.setCol, hfind, DF.colNames, List.map_append]
    exact List.mem_append_right _ (by simp)

theorem select_rows_length (df : DF) (names : List String) :
    (df.select names).rows.length = df.rows.length := by
  simp [DF.select]

theorem find?_name_of_mem {l : List (String × DType)} {n : String}
    (h : n ∈ l.map Prod.fst) :
    ∃ t, l.find? (fun p => p.1 == n) = some (n, t) := by
  induction l with
  | nil => simp at h
  | cons e l ih =>
    by_cases he : e.1 = n
    · refine ⟨e.2, ?_⟩
      have hb : (e.1 == n) = true := by simp [he]
      rw [List.find?_cons, hb]
      rw [← he]
    · have h' : n ∈ l.map Prod.fst := by
        simp only [List.map_cons, List.mem_cons] at h
        exact h.resolve_left (fun hh => he hh.symm)
      obtain ⟨t, ht⟩ := ih h'
      have hb : (e.1 == n) = false := by simp [he]
      rw [List.find?_cons, hb]
      exact ⟨t, ht⟩

theorem select_colNames {df : DF} {names : List String}
    (h : ∀ n ∈ names, n ∈ df.colNames) : (df.select names).colNames = names := by
  induction names with
  | nil => rfl
  | cons n ns ih =>
    obtain ⟨t, ht⟩ := find?_name_of_mem (h n (List.mem_cons_self _ _))
    have htail := ih (fun m hm => h m (List.mem_cons_of_mem _ hm))
    simp only [DF.select, DF.colNames, List.filterMap_cons, ht, List.map_cons] at htail ⊢
    rw [htail]

theorem colorStep_rows_length {df df4 : DF} (h : colorStep df = .ok df4) :
    df4.rows.length = df.rows.length := by
  rw [colorStep] at h
  by_cases hd : df.dtypeAt "RSRP (dBm)" = some .dstr
  · rw [if_pos hd] at h; cases h
  · rw [if_neg hd] at h
    simp only [Except.ok.injEq] at h
    subst h
    simp only [setCol_rows_length_eq, List.length_map, List.length_replicate]
    omega

theorem colorStep_colNames {df df4 : DF} (h : colorStep df = .ok df4) :
    (∀ c, c ∈ df.colNames → c ∈ df4.colNames) ∧
      "r" ∈ df4.colNames ∧ "g" ∈ df4.colNames ∧ "b" ∈ df4.colNames := by
  rw [colorStep] at h
  by_cases hd : df.dtypeAt "RSRP (dBm)" = some .dstr
  · rw [if_pos hd] at h; cases h
  · rw [if_neg hd] at h
    simp only [Except.ok.injEq] at h
    subst h
    refine ⟨fun c hc => ?_, ?_, ?_, ?_⟩
    · exact mem_setCol_of_mem _ _ _ (mem_setCol_of_mem _ _ _
        (mem_setCol_of_mem _ _ _ (mem_setCol_of_mem _ _ _ hc)))
    · exact mem_setCol_of_mem _ _ _ (mem_setCol_of_mem _ _ _ (self_mem_setCol _ _ _))
    · exact mem_setCol_of_mem _ _ _ (self_mem_setCol _ _ _)
    · exact self_mem_setCol _ _ _

theorem filterStep_header {df df3 : DF} (h : filterStep df = .ok df3) :
    df3.header = df.header := by
  rw [filterStep] at h
  by_cases hd : df.dtypeAt "lat" = some .dstr ∨ df.dtypeAt "lon" = some .dstr
  · rw [if_pos hd] at h; cases h
  · rw [if_neg hd] at h
    simp only [Except.ok.injEq] at h
    subst h
    rfl

/-- A resolved column name is case-insensitively one of the aliases. -/
theorem find_col_strLower {cols cands : List String} {c : String}
    (h : find_col cols cands = some c) : strLower c ∈ cands.map strLower := by
  rw [find_col_eq_findSome] at h
  obtain ⟨a, ha, _, hfa⟩ := findSome?_eq_some_first _ _ _ h
  by_cases hm : a ∈ cols
  · rw [if_pos hm] at hfa
    cases hfa
    exact List.mem_map_of_mem _ ha
  · rw [if_neg hm] at hfa
    have hc := mem_of_getLast?_eq hfa
    have heq : strLower c = strLower a := by
      have := (List.mem_filter.mp hc).2
      simpa using this
    rw [heq]
    exact List.mem_map_of_mem _ ha

/- ## Claims C4 and C8: the Color Mapper -/

theorem rnd_eq_floor (x : ℚ) :
    rnd x = if x < 0 then -(⌊-x + 1 / 2⌋) else ⌊x + 1 / 2⌋ := by
  rw [rnd, (Rat.floor_def' _).trans Rat.floor_def.symm,
    (Rat.floor_def' _).trans Rat.floor_def.symm]

theorem rnd_mono {x y : ℚ} (h : x ≤ y) : rnd x ≤ rnd y := by
  rw [rnd_eq_floor, rnd_eq_floor]
  by_cases hx : x < 0 <;> by_cases hy : y < 0
  · rw [if_pos hx, if_pos hy]
    have hf : ⌊-y + 1 / 2⌋ ≤ ⌊-x + 1 / 2⌋ := Int.floor_le_floor (by linarith)
    omega
  · rw [if_pos hx, if_neg hy]
    have h1 : (0 : ℤ) ≤ ⌊-x + 1 / 2⌋ := Int.floor_nonneg.mpr (by linarith)
    have h2 : (0 : ℤ) ≤ ⌊y + 1 / 2⌋ := Int.floor_nonneg.mpr (by push_neg at hy; linarith)
    omega
  · push_neg at hx; linarith
  · rw [if_neg hx, if_neg hy]
    exact Int.floor_le_floor (by linarith)

theorem rnd_zero : rnd 0 = 0 := by
  rw [rnd_eq_floor, if_neg (lt_irrefl 0)]
  norm_num

theorem rnd_255 : rnd 255 = 255 := by
  rw [rnd_eq_floor, if_neg (by norm_num)]
  norm_num

theorem tOf_mono {q1 q2 : ℚ} (h : q1 ≤ q2) : tOf q1 ≤ tOf q2 := by
  rw [tOf, tOf]
  have hd : (q1 + 135) / 50 ≤ (q2 + 135) / 50 :=
    (div_le_div_iff_of_pos_right (by norm_num)).mpr (by linarith)
  exact min_le_min (max_le_max hd (le_refl 0)) (le_refl 1)

/-- Claim C4: the Color Mapper saturates: every signal value at or above
−85 dBm maps to `(r, g) = (0, 255)`, every value at or below −135 dBm to
`(255, 0)`; values outside the calibration window take these boundary
colors (no error is possible — `colorMap` is total), and `b = 0`
always. -/
theorem C4_color_saturation :
    ∀ rsrp : ℚ,
      ((-85 : ℚ) ≤ rsrp → (colorMap rsrp).1 = 0 ∧ (colorMap rsrp).2.1 = 255) ∧
      (rsrp ≤ (-135 : ℚ) → (colorMap rsrp).1 = 255 ∧ (colorMap rsrp).2.1 = 0) ∧
      (colorMap rsrp).2.2 = 0 := by
  intro rsrp
  refine ⟨fun h => ?_, fun h => ?_, rfl⟩
  · have h1 : (1 : ℚ) ≤ (rsrp + 135) / 50 := by
      rw [le_div_iff₀ (by norm_num : (0 : ℚ) < 50)]; linarith
    have ht : tOf rsrp = 1 := by
      rw [tOf, max_eq_left (by linarith), min_eq_right h1]
    simp only [colorMap, ht]
    constructor
    · rw [show (255 : ℚ) * (1 - 1) = 0 by ring]; exact rnd_zero
    · rw [show (255 : ℚ) * 1 = 255 by ring]; exact rnd_255
  · have h0 : (rsrp + 135) / 50 ≤ 0 := by
      rw [div_le_iff₀ (by norm_num : (0 : ℚ) < 50)]; linarith
    have ht : tOf rsrp = 0 := by
      rw [tOf, max_eq_right h0, min_eq_left (by norm_num)]
    simp only [colorMap, ht]
    constructor
    · rw [show (255 : ℚ) * (1 - 0) = 255 by ring]; exact rnd_255
    · rw [show (255 : ℚ) * 0 = 0 by ring]; exact rnd_zero

/-- Claim C4, witness: the saturation facts instantiated at the two
boundary values. -/
theorem C4_witness :
    (((-85 : ℚ) ≤ -85 → (colorMap (-85)).1 = 0 ∧ (colorMap (-85)).2.1 = 255) ∧
      ((-85 : ℚ) ≤ (-135 : ℚ) → (colorMap (-85)).1 = 255 ∧ (colorMap (-85)).2.1 = 0) ∧
      (colorMap (-85)).2.2 = 0) ∧
    (((-85 : ℚ) ≤ -135 → (colorMap (-135)).1 = 0 ∧ (colorMap (-135)).2.1 = 255) ∧
      ((-135 : ℚ) ≤ (-135 : ℚ) → (colorMap (-135)).1 = 255 ∧ (colorMap (-135)).2.1 = 0) ∧
      (colorMap (-135)).2.2 = 0) :=
  ⟨C4_color_saturation (-85), C4_color_saturation (-135)⟩

/-- Claim C8: the Color Mapper is monotonic in signal strength: a
strictly stronger signal never gets a redder or less green color. -/
theorem C8_color_monotone :
    ∀ q1 q2 : ℚ, q1 < q2 →
      (colorMap q2).1 ≤ (colorMap q1).1 ∧ (colorMap q1).2.1 ≤ (colorMap q2).2.1 := by
  intro q1 q2 h
  have ht := tOf_mono (le_of_lt h)
  simp only [colorMap]
  exact ⟨rnd_mono (by linarith), rnd_mono (by linarith)⟩

/-- Claim C8, witness: monotonicity at −120 dBm vs −100 dBm. -/
theorem C8_witness :
    (colorMap (-100)).1 ≤ (colorMap (-120)).1 ∧
    (colorMap (-120)).2.1 ≤ (colorMap (-100)).2.1 :=
  C8_color_monotone (-120) (-100) (by norm_num)

/- ## Claim C5: the View Heuristic -/

theorem zoomOf_bracket_15 {s : ℚ} (h : s < 0.01) : zoomOf s = 15 := by
  rw [zoomOf, if_pos h]

theorem zoomOf_bracket_12 {s : ℚ} (h1 : 0.01 ≤ s) (h2 : s < 0.1) : zoomOf s = 12 := by
  rw [zoomOf, if_neg (not_lt.mpr h1), if_pos h2]

theorem zoomOf_bracket_9 {s : ℚ} (h1 : 0.1 ≤ s) (h2 : s < 1) : zoomOf s = 9 := by
  rw [zoomOf, if_neg (not_lt.mpr (by linarith)), if_neg (not_lt.mpr h1), if_pos h2]

theorem zoomOf_bracket_6 {s : ℚ} (h1 : 1 ≤ s) (h2 : s < 5) : zoomOf s = 6 := by
  rw [zoomOf, if_neg (not_lt.mpr (by linarith)), if_neg (not_lt.mpr (by linarith)),
    if_neg (not_lt.mpr h1), if_pos h2]

theorem zoomOf_bracket_3 {s : ℚ} (h : 5 ≤ s) : zoomOf s = 3 := by
  rw [zoomOf, if_neg (not_lt.mpr (by linarith)), if_neg (not_lt.mpr (by linarith)),
    if_neg (not_lt.mpr (by linarith)), if_neg (not_lt.mpr h)]

/-- Claim C5: for a non-empty cleaned record set, the view centers on
the mean latitude and mean longitude, and the zoom is a function of the
bounding-box span alone, chosen by the first matching threshold in
increasing order (0.01, 0.1, 1, 5); a span of 0 gives zoom 15, and a
span exactly at a threshold falls into the later, lower-zoom bracket. -/
theorem C5_view_heuristic :
    ∀ rows : List (ℚ × ℚ), rows ≠ [] →
      (compute_view rows).1 = (rows.map Prod.fst).sum / rows.length ∧
      (compute_view rows).2.1 = (rows.map Prod.snd).sum / rows.length ∧
      (spanOf rows < 0.01 → (compute_view rows).2.2 = 15) ∧
      (0.01 ≤ spanOf rows → spanOf rows < 0.1 → (compute_view rows).2.2 = 12) ∧
      (0.1 ≤ spanOf rows → spanOf rows < 1 → (compute_view rows).2.2 = 9) ∧
      (1 ≤ spanOf rows → spanOf rows < 5 → (compute_view rows).2.2 = 6) ∧
      (5 ≤ spanOf rows → (compute_view rows).2.2 = 3) ∧
      (spanOf rows = 0 → (compute_view rows).2.2 = 15) ∧
      (spanOf rows = 0.01 → (compute_view rows).2.2 = 12) ∧
      (spanOf rows = 0.1 → (compute_view rows).2.2 = 9) ∧
      (spanOf rows = 1 → (compute_view rows).2.2 = 6) ∧
      (spanOf rows = 5 → (compute_view rows).2.2 = 3) ∧
      (∀ rows2 : List (ℚ × ℚ), spanOf rows2 = spanOf rows →
        (compute_view rows2).2.2 = (compute_view rows).2.2) := by
  intro rows _
  refine ⟨?_, ?_, ?_, ?_, ?_, ?_, ?_, ?_, ?_, ?_, ?_, ?_, ?_⟩
  · simp [compute_view, meanOf]
  · simp [compute_view, meanOf]
  · exact fun h => zoomOf_bracket_15 h
  · exact fun h1 h2 => zoomOf_bracket_12 h1 h2
  · exact fun h1 h2 => zoomOf_bracket_9 h1 h2
  · exact fun h1 h2 => zoomOf_bracket_6 h1 h2
  · exact fun h => zoomOf_bracket_3 h
  · exact fun h => zoomOf_bracket_15 (by rw [h]; norm_num)
  · exact fun h => zoomOf_bracket_12 (by rw [h]) (by rw [h]; norm_num)
  · exact fun h => zoomOf_bracket_9 (by rw [h]) (by rw [h]; norm_num)
  · exact fun h => zoomOf_bracket_6 (by rw [h]) (by rw [h]; norm_num)
  · exact fun h => zoomOf_bracket_3 (by rw [h])
  · exact fun rows2 h => by simp only [compute_view]; rw [h]

/-- Claim C5, witness: a single point has span 0 and gets zoom 15. -/
theorem C5_witness : (compute_view [((0 : ℚ), (0 : ℚ))]).2.2 = 15 :=
  (C5_view_heuristic [((0 : ℚ), (0 : ℚ))]
    (by simp)).2.2.2.2.2.2.2.1 (by with_unfolding_all decide)

/-- Claim C10, witness: with columns `["Lat", "LAT"]` and the single
alias `"lat"`, resolution succeeds case-insensitively and returns the
last matching column `"LAT"`. -/
theorem C10_witness :
    ("LAT" : String) ∈ ["Lat", "LAT"] ∧
    ((∀ a ∈ (["lat"] : List String), a ∉ (["Lat", "LAT"] : List String)) →
      ∃ a ∈ (["lat"] : List String),
        (["lat"] : List String).find?
            (fun x => !((["Lat", "LAT"] : List String).filter
              (fun y => strLower y == strLower x)).isEmpty) = some a ∧
        ((["Lat", "LAT"] : List String).filter
          (fun y => strLower y == strLower a)).getLast? = some "LAT") :=
  C10_find_col_safety ["Lat", "LAT"] ["lat"] "LAT" rfl

/- ## Claims C1 and C2: missing values and missing columns -/

/-- Claim C1, code bug: a non-numeric value in the signal-strength
column is NOT treated as missing.  The source defines `coerce_numeric`
(numeric cast with a decimal-comma fallback) but never calls it, so no
numeric coercion happens anywhere in `validate_and_prepare`: the
missing-value step is a bare `drop_nulls`, which keeps the unparsable
string `"abc"` (second conjunct: both rows survive the drop), and the
run then fails with a polars type error at the color arithmetic instead
of dropping the row. -/
theorem C1_string_signal_not_dropped :
    validate_and_prepare dfStrSignal = .error .computeError ∧
    ((dfStrSignal.rename
        [("Latitude", "lat"), ("Longitude", "lon"), ("RSRP (dBm)", "RSRP (dBm)")]).dropNulls
        ["lat", "lon", "RSRP (dBm)"]).rows.length = 2 := by
  constructor
  · with_unfolding_all rfl
  · with_unfolding_all rfl

/-- Claim C2, counterexample: the `MissingColumns` error does not name
exactly the fields that could not be found.  For `dfLatLonOnly` only the
signal-strength field is unresolved (latitude resolves to `"Latitude"`),
yet the message is the same fixed string as for `dfNoCols`, where all
three fields are unresolved — a message that names exactly the missing
fields would have to differ between the two, and the fixed string names
`Latitude` even when latitude was found. -/
theorem C2_counterexample :
    find_col dfLatLonOnly.colNames (aliasesFor "lat") = some "Latitude" ∧
    find_col dfLatLonOnly.colNames (aliasesFor "rsrp") = none ∧
    find_col dfNoCols.colNames (aliasesFor "lat") = none ∧
    validate_and_prepare dfLatLonOnly = .error (.valueError missingMsg) ∧
    validate_and_prepare dfNoCols = .error (.valueError missingMsg) := by
  refine ⟨rfl, rfl, rfl, rfl, rfl⟩

/-- Claim C2 (amended): if any of the three semantic fields cannot be
resolved, `validate_and_prepare` fails immediately with the
missing-columns `ValueError` whose fixed message lists all three
expected column names (regardless of which fields are missing), and no
cleaning, coloring, or selection is performed. -/
theorem C2_missing_columns_error :
    ∀ df : DF,
      (find_col df.colNames (aliasesFor "lat") = none ∨
        find_col df.colNames (aliasesFor "lon") = none ∨
        find_col df.colNames (aliasesFor "rsrp") = none) →
      validate_and_prepare df = .error (.valueError missingMsg) := by
  intro df h
  cases hlat : find_col df.colNames (aliasesFor "lat") with
  | none => simp [validate_and_prepare, hlat]
  | some latC =>
    cases hlon : find_col df.colNames (aliasesFor "lon") with
    | none => simp [validate_and_prepare, hlat, hlon]
    | some lonC =>
      cases hrsrp : find_col df.colNames (aliasesFor "rsrp") with
      | none => simp [validate_and_prepare, hlat, hlon, hrsrp]
      | some rsrpC =>
        rcases h with h | h | h
        · rw [hlat] at h; cases h
        · rw [hlon] at h; cases h
        · rw [hrsrp] at h; cases h

/-- Claim C2, witness: an upload with no resolvable columns at all gets
the missing-columns error. -/
theorem C2_witness :
    validate_and_prepare dfNoCols = .error (.valueError missingMsg) :=
  C2_missing_columns_error dfNoCols (Or.inl rfl)

/- ## Claim C7: no empty result -/

/-- Claim C7: the Validator/Cleaner never returns a zero-row frame: any
`ok` result has at least one row, and whenever the null/range drops
leave zero rows the function raises the `NoValidData` error instead of
returning. -/
theorem C7_no_empty_result :
    (∀ df out : DF, validate_and_prepare df = .ok out → 1 ≤ out.rows.length) ∧
    (∀ (df : DF) (latC lonC rsrpC : String) (df3 : DF),
      find_col df.colNames (aliasesFor "lat") = some latC →
      find_col df.colNames (aliasesFor "lon") = some lonC →
      find_col df.colNames (aliasesFor "rsrp") = some rsrpC →
      filterStep ((df.rename [(latC, "lat"), (lonC, "lon"), (rsrpC, "RSRP (dBm)")]).dropNulls
        ["lat", "lon", "RSRP (dBm)"]) = .ok df3 →
      df3.rows.length = 0 →
      validate_and_prepare df = .error (.valueError noValidMsg)) := by
  constructor
  · intro df out h
    cases hlat : find_col df.colNames (aliasesFor "lat") with
    | none => simp [validate_and_prepare, hlat] at h
    | some latC =>
    cases hlon : find_col df.colNames (aliasesFor "lon") with
    | none => simp [validate_and_prepare, hlat, hlon] at h
    | some lonC =>
    cases hrsrp : find_col df.colNames (aliasesFor "rsrp") with
    | none => simp [validate_and_prepare, hlat, hlon, hrsrp] at h
    | some rsrpC =>
    simp only [validate_and_prepare, hlat, hlon, hrsrp] at h
    cases hF : filterStep ((df.rename
        [(latC, "lat"), (lonC, "lon"), (rsrpC, "RSRP (dBm)")]).dropNulls
        ["lat", "lon", "RSRP (dBm)"]) with
    | error e => simp only [hF] at h; simp at h
    | ok df3 =>
    simp only [hF] at h
    by_cases hlen : df3.rows.length = 0
    · rw [if_pos hlen] at h; simp at h
    · rw [if_neg hlen] at h
      cases hC : colorStep df3 with
      | error e => simp only [hC] at h; simp at h
      | ok df4 =>
      simp only [hC] at h
      have hout : df4.select ["lat", "lon", "RSRP (dBm)", "r", "g", "b"] = out := by
        simpa using h
      rw [← hout, select_rows_length, colorStep_rows_length hC]
      omega
  · intro df latC lonC rsrpC df3 hlat hlon hrsrp hF hlen
    simp only [validate_and_prepare, hlat, hlon, hrsrp, hF]
    rw [if_pos hlen]

/-- Claim C7, witness: a clean one-row upload yields one row, and an
upload whose single row has a null latitude gets the `NoValidData`
error. -/
theorem C7_witness :
    1 ≤ outGood.rows.length ∧
    validate_and_prepare dfAllNull = .error (.valueError noValidMsg) :=
  ⟨C7_no_empty_result.1 dfGood outGood (by with_unfolding_all rfl),
   C7_no_empty_result.2 dfAllNull "Latitude" "Longitude" "RSRP (dBm)" df3Empty
     rfl rfl rfl (by with_unfolding_all rfl) rfl⟩

/- ## Claim C9: canonical column names -/

/-- Claim C9, counterexample: the cleaned result does NOT expose the
signal-strength field under the canonical name `rsrp`.  Line 41 of the
source renames the resolved signal column to `"RSRP (dBm)"`, so the
prepared frame for a well-formed upload has columns
`lat, lon, RSRP (dBm), r, g, b` and no column named `rsrp`. -/
theorem C9_counterexample :
    validate_and_prepare dfGood = .ok outGood ∧
    outGood.colNames = ["lat", "lon", "RSRP (dBm)", "r", "g", "b"] ∧
    "rsrp" ∉ outGood.colNames := by
  refine ⟨by with_unfolding_all rfl, rfl, by decide⟩

/-- Claim C9 (amended): after successful resolution the resolved
columns are renamed to `lat`, `lon`, and `RSRP (dBm)` — not `rsrp` —
and every successful result exposes exactly the columns
`lat, lon, RSRP (dBm), r, g, b`, with the signal strength under the
original `RSRP (dBm)` header rather than a canonical `rsrp`. -/
theorem C9_output_columns :
    ∀ df out : DF, validate_and_prepare df = .ok out →
      out.colNames = ["lat", "lon", "RSRP (dBm)", "r", "g", "b"] ∧
      "rsrp" ∉ out.colNames := by
  intro df out h
  cases hlat : find_col df.colNames (aliasesFor "lat") with
  | none => simp [validate_and_prepare, hlat] at h
  | some latC =>
  cases hlon : find_col df.colNames (aliasesFor "lon") with
  | none => simp [validate_and_prepare, hlat, hlon] at h
  | some lonC =>
  cases hrsrp : find_col df.colNames (aliasesFor "rsrp") with
  | none => simp [validate_and_prepare, hlat, hlon, hrsrp] at h
  | some rsrpC =>
  simp only [validate_and_prepare, hlat, hlon, hrsrp] at h
  cases hF : filterStep ((df.rename
      [(latC, "lat"), (lonC, "lon"), (rsrpC, "RSRP (dBm)")]).dropNulls
      ["lat", "lon", "RSRP (dBm)"]) with
  | error e => simp only [hF] at h; simp at h
  | ok df3 =>
  simp only [hF] at h
  by_cases hlen : df3.rows.length = 0
  · rw [if_pos hlen] at h; simp at h
  · rw [if_neg hlen] at h
    cases hC : colorStep df3 with
    | error e => simp only [hC] at h; simp at h
    | ok df4 =>
    simp only [hC] at h
    have hout : df4.select ["lat", "lon", "RSRP (dBm)", "r", "g", "b"] = out := by
      simpa using h
    -- the three resolved names are pairwise distinct: each is
    -- case-insensitively one of its field's aliases, and the three
    -- alias pools are case-insensitively disjoint
    have hl1 := find_col_strLower hlat
    have hl2 := find_col_strLower hlon
    have hl3 := find_col_strLower hrsrp
    have hne1 : lonC ≠ latC := by
      intro he
      rw [he] at hl2
      have hdisj : ∀ x ∈ (aliasesFor "lat").map strLower,
          x ∉ (aliasesFor "lon").map strLower := by decide
      exact hdisj _ hl1 hl2
    have hne2 : rsrpC ≠ latC := by
      intro he
      rw [he] at hl3
      have hdisj : ∀ x ∈ (aliasesFor "lat").map strLower,
          x ∉ (aliasesFor "rsrp").map strLower := by decide
      exact hdisj _ hl1 hl3
    have hne3 : rsrpC ≠ lonC := by
      intro he
      rw [he] at hl3
      have hdisj : ∀ x ∈ (aliasesFor "lon").map strLower,
          x ∉ (aliasesFor "rsrp").map strLower := by decide
      exact hdisj _ hl2 hl3
    -- rename targets of the three resolved columns
    have hlk1 : ([(latC, "lat"), (lonC, "lon"), (rsrpC, "RSRP (dBm)")]).lookup latC
        = some "lat" := by
      simp [List.lookup_cons]
    have hlk2 : ([(latC, "lat"), (lonC, "lon"), (rsrpC, "RSRP (dBm)")]).lookup lonC
        = some "lon" := by
      have hb1 : (lonC == latC) = false := beq_eq_false_iff_ne.mpr hne1
      simp [List.lookup_cons, hb1]
    have hlk3 : ([(latC, "lat"), (lonC, "lon"), (rsrpC, "RSRP (dBm)")]).lookup rsrpC
        = some "RSRP (dBm)" := by
      have hb2 : (rsrpC == latC) = false := beq_eq_false_iff_ne.mpr hne2
      have hb3 : (rsrpC == lonC) = false := beq_eq_false_iff_ne.mpr hne3
      simp [List.lookup_cons, hb2, hb3]
    -- presence of the renamed columns
    have hlatmem : "lat" ∈ (df.rename
        [(latC, "lat"), (lonC, "lon"), (rsrpC, "RSRP (dBm)")]).colNames := by
      rw [rename_colNames]
      exact List.mem_map.mpr ⟨latC, find_col_mem hlat, by simp [renameKey, hlk1]⟩
    have hlonmem : "lon" ∈ (df.rename
        [(latC, "lat"), (lonC, "lon"), (rsrpC, "RSRP (dBm)")]).colNames := by
      rw [rename_colNames]
      exact List.mem_map.mpr ⟨lonC, find_col_mem hlon, by simp [renameKey, hlk2]⟩
    have hrsrpmem : "RSRP (dBm)" ∈ (df.rename
        [(latC, "lat"), (lonC, "lon"), (rsrpC, "RSRP (dBm)")]).colNames := by
      rw [rename_colNames]
      exact List.mem_map.mpr ⟨rsrpC, find_col_mem hrsrp, by simp [renameKey, hlk3]⟩
    -- the filter step keeps the header
    have hdf3 : df3.colNames = (df.rename
        [(latC, "lat"), (lonC, "lon"), (rsrpC, "RSRP (dBm)")]).colNames := by
      rw [DF.colNames, filterStep_header hF]
      rfl
    obtain ⟨hpres, hr, hg, hb⟩ := colorStep_colNames hC
    have hsel : (df4.select ["lat", "lon", "RSRP (dBm)", "r", "g", "b"]).colNames
        = ["lat", "lon", "RSRP (dBm)", "r", "g", "b"] := by
      refine select_colNames ?_
      intro n hn
      simp only [List.mem_cons, List.not_mem_nil, or_false] at hn
      rcases hn with rfl | rfl | rfl | rfl | rfl | rfl
      · exact hpres _ (hdf3 ▸ hlatmem)
      · exact hpres _ (hdf3 ▸ hlonmem)
      · exact hpres _ (hdf3 ▸ hrsrpmem)
      · exact hr
      · exact hg
      · exact hb
    rw [← hout, hsel]
    exact ⟨rfl, by decide⟩

/-- Claim C9, witness: the prepared frame of a well-formed upload has
exactly the six output columns and none named `rsrp`. -/
theorem C9_witness :
    outGood.colNames = ["lat", "lon", "RSRP (dBm)", "r", "g", "b"] ∧
    "rsrp" ∉ outGood.colNames :=
  C9_output_columns dfGood outGood (by with_unfolding_all rfl)

/- ## Claim C6: the cleaning filter -/

/-- Claim C6: with resolved columns (and numerically typed coordinate
columns, so the range filter type-checks), a row survives cleaning iff
it is a raw row with non-missing values in all three required fields
whose latitude lies in [−90, 90] and whose longitude lies in
[−180, 180], bounds inclusive; the null drop happens before the range
drop, as in the composition below. -/
theorem C6_clean_membership :
    ∀ (df : DF) (latC lonC rsrpC : String),
      find_col df.colNames (aliasesFor "lat") = some latC →
      find_col df.colNames (aliasesFor "lon") = some lonC →
      find_col df.colNames (aliasesFor "rsrp") = some rsrpC →
      ∀ df1 : DF,
      df1 = df.rename [(latC, "lat"), (lonC, "lon"), (rsrpC, "RSRP (dBm)")] →
      df1.dtypeAt "lat" ≠ some .dstr →
      df1.dtypeAt "lon" ≠ some .dstr →
      ∃ df3 : DF,
        filterStep (df1.dropNulls ["lat", "lon", "RSRP (dBm)"]) = .ok df3 ∧
        ∀ r : List Val, r ∈ df3.rows ↔
          (r ∈ df.rows ∧
            (df1.cell r "lat" ≠ .vnull ∧ df1.cell r "lon" ≠ .vnull ∧
              df1.cell r "RSRP (dBm)" ≠ .vnull) ∧
            (valBetween (df1.cell r "lat") (-90) 90 = true ∧
              valBetween (df1.cell r "lon") (-180) 180 = true)) := by
  intro df latC lonC rsrpC hlat hlon hrsrp df1 hdf1 hd1 hd2
  have hcond : ¬((df1.dropNulls ["lat", "lon", "RSRP (dBm)"]).dtypeAt "lat" = some .dstr ∨
      (df1.dropNulls ["lat", "lon", "RSRP (dBm)"]).dtypeAt "lon" = some .dstr) := by
    rw [dropNulls_dtypeAt, dropNulls_dtypeAt]
    push_neg
    exact ⟨hd1, hd2⟩
  refine ⟨_, by rw [filterStep, if_neg hcond], ?_⟩
  intro r
  subst hdf1
  simp only [DF.dropNulls, List.mem_filter, List.all_cons, List.all_nil, Bool.and_eq_true,
    Bool.not_eq_true', beq_eq_false_iff_ne, rename_rows, and_true]
  tauto

/-- Claim C6, witness: the characterization instantiated at `dfMix`
(one clean row, one null row, two out-of-range rows). -/
theorem C6_witness :
    ∃ df3 : DF,
      filterStep ((dfMix.rename [("Latitude", "lat"), ("Longitude", "lon"),
          ("RSRP (dBm)", "RSRP (dBm)")]).dropNulls ["lat", "lon", "RSRP (dBm)"]) = .ok df3 ∧
      ∀ r : List Val, r ∈ df3.rows ↔
        (r ∈ dfMix.rows ∧
          ((dfMix.rename [("Latitude", "lat"), ("Longitude", "lon"),
              ("RSRP (dBm)", "RSRP (dBm)")]).cell r "lat" ≠ .vnull ∧
            (dfMix.rename [("Latitude", "lat"), ("Longitude", "lon"),
              ("RSRP (dBm)", "RSRP (dBm)")]).cell r "lon" ≠ .vnull ∧
            (dfMix.rename [("Latitude", "lat"), ("Longitude", "lon"),
              ("RSRP (dBm)", "RSRP (dBm)")]).cell r "RSRP (dBm)" ≠ .vnull) ∧
          (valBetween ((dfMix.rename [("Latitude", "lat"), ("Longitude", "lon"),
              ("RSRP (dBm)", "RSRP (dBm)")]).cell r "lat") (-90) 90 = true ∧
            valBetween ((dfMix.rename [("Latitude", "lat"), ("Longitude", "lon"),
              ("RSRP (dBm)", "RSRP (dBm)")]).cell r "lon") (-180) 180 = true)) :=
  C6_clean_membership dfMix "Latitude" "Longitude" "RSRP (dBm)" rfl rfl rfl _ rfl
    (by decide) (by decide)
